import Mathlib

/-!
Shallow embedding of the `agentic-backend` repository's chat and token-lifecycle
core (FastAPI + SQLModel source under `app/`), together with proofs settling the
frozen specification claims.

Conventions of the embedding:
* Database rows are Lean structures; a session/store is a list of rows.  UUIDs
  are modelled as `Nat` identifiers (generation is random in the source, so
  fresh ids are passed in as parameters).  `datetime` values are integer
  timestamps in seconds.
* Async endpoints become pure functions; `HTTPException` aborts become
  `Except` errors.  SQLAlchemy commits on the streaming path are recorded as
  explicit actions in an observable trace.
* External libraries (bcrypt, sha256, the signed-JWT encoder/decoder, the
  model-gateway SDK) are parameters of the functions that call them.
-/

set_option maxRecDepth 100000

namespace AgenticBackend

/-! ## Data model: `app/schema/chat.py` and `app/models/` -/

/-- The `MessageRole` enum from `app/schema/chat.py`. -/
inductive MessageRole
  | user
  | assistant
  | system
deriving DecidableEq, Repr

/-- The `.value` of a `MessageRole` member (the string stored in the `role` column). -/
def MessageRole.value : MessageRole → String
  | .user => "user"
  | .assistant => "assistant"
  | .system => "system"

/-- The `MessageStatus` enum from `app/schema/chat.py`. -/
inductive MessageStatus
  | pending
  | completed
  | failed
deriving DecidableEq, Repr

/-- The `.value` of a `MessageStatus` member (the string stored in the `status` column). -/
def MessageStatus.value : MessageStatus → String
  | .pending => "pending"
  | .completed => "completed"
  | .failed => "failed"

/-- The metadata dict built by `_build_message_metadata` in `app/api/v1/chat.py`:
optional `client_metadata` entry (the client metadata dump, kept opaque as a
string) and a `tags` entry (absent is conflated with the empty list, matching
Python dict-key truthiness). -/
structure MessageMeta where
  client_metadata : Option String
  tags : List String
deriving DecidableEq, Repr

/-- A row of the `messages` table (`app/models/message.py`).  `created_at` and
ORM relationship attributes are omitted; `content` is nullable while streaming. -/
structure MessageRow where
  id : Nat
  conversation_id : Nat
  author_id : Option Nat
  role : String
  content : Option String
  tokens : Nat
  status : String
  provider_meta : Option MessageMeta
deriving DecidableEq, Repr

/-- A row of the `conversations` table (`app/models/conversation.py`).
`system_prompt`, `visibility` and timestamps are not touched by the chat
endpoints and are omitted. -/
structure ConversationRow where
  id : Nat
  user_id : Nat
  title : Option String
  model : String
deriving DecidableEq, Repr

/-- The conversation/message portion of the relational store, as seen through
one request's session. -/
structure ChatDb where
  conversations : List ConversationRow
  messages : List MessageRow
deriving DecidableEq, Repr

/-- Model of `fastapi.HTTPException`: status code plus detail string. -/
structure HTTPException where
  status_code : Nat
  detail : String
deriving DecidableEq, Repr

/-- Model of `ChatPrompt` from `app/schema/chat.py` (the request body of both chat
endpoints).  `metadata` is the opaque client-metadata dump. -/
structure ChatPrompt where
  conversation_id : Option Nat
  author_id : Option Nat
  text : String
  metadata : Option String
  tags : List String
deriving DecidableEq, Repr

/-- Modelled from the spec: `ChatPrompt.get_last_message_content` is called by
both chat endpoints but its definition is not under `src/` (the `ChatPrompt`
class there carries only the `text` field).  Per the spec the validated input is
the request's triggering text ("Validate non-empty input text"), so the call
returns the prompt's `text`. -/
def ChatPrompt.get_last_message_content (p : ChatPrompt) : String := p.text

/-- Python `str.strip()` with no arguments: drop leading and trailing
whitespace characters. -/
def pyStrip (s : String) : String :=
  String.mk (((s.data.dropWhile Char.isWhitespace).reverse.dropWhile
    Char.isWhitespace).reverse)

/-- Helper for `len(s.split())`: count maximal runs of non-whitespace
characters; the flag records whether the scan is inside a word. -/
def countWordsAux : List Char → Bool → Nat
  | [], _ => 0
  | c :: rest, inWord =>
    if Char.isWhitespace c then countWordsAux rest false
    else (if inWord then 0 else 1) + countWordsAux rest true

/-- Model of `len(s.split())` in Python: number of whitespace-separated words. -/
def pySplitLen (s : String) : Nat := countWordsAux s.data false

/-- Model of `ChatCompletionResponse` from `app/schema/chat.py`, with the response models
identified with the rows they are validated from. -/
structure ChatCompletionResponse where
  conversation : ConversationRow
  request_message : MessageRow
  response_message : MessageRow
deriving DecidableEq, Repr

/-! ## `app/api/v1/chat.py`: synchronous endpoint -/

/-- Model of `_build_message_metadata(prompt) or None` from `app/api/v1/chat.py`: the
dict gets a `client_metadata` key if the prompt carries metadata and a `tags`
key if the tag list is non-empty; an empty dict is coerced to `None`. -/
def _build_message_metadata (prompt : ChatPrompt) : Option MessageMeta :=
  match prompt.metadata, prompt.tags with
  | none, [] => none
  | m, t => some { client_metadata := m, tags := t }

/-- Model of `_resolve_conversation` from `app/api/v1/chat.py`: with a conversation id,
select the row with that id owned by the current user and 404 when absent;
without one, create a new conversation titled with the first 80 characters of
the triggering text (`None` title for falsy text). -/
def _resolve_conversation (prompt : ChatPrompt) (db : ChatDb) (current_user_id : Nat)
    (fresh_conv_id : Nat) : Except HTTPException (ConversationRow × ChatDb) :=
  match prompt.conversation_id with
  | some cid =>
    match db.conversations.find? (fun c => c.id == cid && c.user_id == current_user_id) with
    | none => .error { status_code := 404, detail := "Conversation not found" }
    | some conversation => .ok (conversation, db)
  | none =>
    let last_content := prompt.get_last_message_content
    let title : Option String := if last_content = "" then none else some (last_content.take 80)
    let conversation : ConversationRow :=
      { id := fresh_conv_id, user_id := current_user_id, title := title, model := "gpt-4o-mini" }
    .ok (conversation, { db with conversations := db.conversations ++ [conversation] })

/-- The synchronous `chat` endpoint from `app/api/v1/chat.py`.  `final_output`
is the opaque model gateway's reply (`Runner.run(...).final_output`, `none` for
a null reply).  Returns the endpoint outcome together with the session state
the request leaves behind (unchanged when the request is rejected). -/
def chat (prompt : ChatPrompt) (db : ChatDb) (current_user_id : Nat)
    (final_output : Option String)
    (fresh_conv_id fresh_user_msg_id fresh_asst_msg_id : Nat) :
    Except HTTPException ChatCompletionResponse × ChatDb :=
  let last_message := prompt.get_last_message_content
  if pyStrip last_message = "" then
    (.error { status_code := 400, detail := "Message text cannot be empty" }, db)
  else
    match _resolve_conversation prompt db current_user_id fresh_conv_id with
    | .error e => (.error e, db)
    | .ok (conversation, db1) =>
      let user_message : MessageRow :=
        { id := fresh_user_msg_id
          conversation_id := conversation.id
          author_id := some (prompt.author_id.getD current_user_id)
          role := MessageRole.user.value
          content := some last_message
          tokens := 0
          status := MessageStatus.completed.value
          provider_meta := _build_message_metadata prompt }
      let db2 := { db1 with messages := db1.messages ++ [user_message] }
      let reply_text := pyStrip (final_output.getD "")
      let assistant_message : MessageRow :=
        { id := fresh_asst_msg_id
          conversation_id := conversation.id
          author_id := none
          role := MessageRole.assistant.value
          content := some reply_text
          tokens := pySplitLen reply_text
          status := MessageStatus.completed.value
          provider_meta := none }
      let db3 := { db2 with messages := db2.messages ++ [assistant_message] }
      (.ok { conversation := conversation
             request_message := user_message
             response_message := assistant_message }, db3)

/-! ## `app/api/v1/chat.py`: streaming endpoint -/

/-- One event received from the model gateway's stream
(`stream.stream_events()`): either a text delta (`raw_response_event` carrying a
`ResponseTextDeltaEvent`, with `""` standing for a null delta) or any other
event, which the loop skips. -/
inductive GatewayEvent
  | other
  | textDelta (delta : String)
deriving DecidableEq, Repr

/-- One server-sent event written to the client: the initial named `snapshot`
event, or a data chunk carrying conversation id, message id, delta and done
flag (the `chunk_template` / `ChatStreamDelta` payloads). -/
inductive SSE
  | snapshot (conversation : ConversationRow) (request_message : MessageRow)
      (response_id : Nat) (response_status : String) (response_content : String)
  | chunk (conversation_id : Nat) (message_id : Nat) (delta : String) (done : Bool)
deriving DecidableEq, Repr

/-- One observable step of the streaming generator: an event flushed to the
client, the background `asyncio.create_task(db.commit())`, the `await
commit_task` join, or an awaited `db.commit()` of the final update. -/
inductive StreamAction
  | emit (e : SSE)
  | startBackgroundCommit
  | awaitBackgroundCommit
  | commit
deriving DecidableEq, Repr

/-- The `async for event in stream.stream_events()` loop body of
`_stream_agent_response_optimized`: skip non-delta events and empty deltas,
append each remaining delta to the buffer and yield a `done=False` chunk.
Returns the yielded actions together with the buffer contents. -/
def forwardDeltas (conversation_id message_id : Nat) :
    List GatewayEvent → List StreamAction × List String
  | [] => ([], [])
  | .other :: rest => forwardDeltas conversation_id message_id rest
  | .textDelta delta :: rest =>
    if delta = "" then forwardDeltas conversation_id message_id rest
    else
      let (acts, buffer) := forwardDeltas conversation_id message_id rest
      (.emit (.chunk conversation_id message_id delta false) :: acts, delta :: buffer)

/-- Model of `await db.get(Message, mid)`: look the message row up by primary key. -/
def dbGetMessage (db : ChatDb) (mid : Nat) : Option MessageRow :=
  db.messages.find? (fun m => m.id == mid)

/-- In-place ORM update of the message row with primary key `mid`. -/
def updateMessage (db : ChatDb) (mid : Nat) (f : MessageRow → MessageRow) : ChatDb :=
  { db with messages := db.messages.map (fun m => if m.id == mid then f m else m) }

/-- Model of `_stream_agent_response_optimized` from `app/api/v1/chat.py`, run to
exhaustion: the generator yields the snapshot first (before any commit), kicks
off the background commit, forwards the gateway deltas, and terminates through
either the success path (buffer written back with status `completed`) or the
`except` path when the gateway raises after `events` (buffer written back with
status `failed`), both ending in a `done=True` chunk.  The trailing `raise` of
the `except` path changes no state and is not part of the trace. -/
def _stream_agent_response_optimized (conversation_data : ConversationRow)
    (user_message_data : MessageRow) (assistant_message_id : Nat) (db : ChatDb)
    (should_commit_on_start : Bool) (events : List GatewayEvent)
    (gatewayRaises : Bool) : List StreamAction × ChatDb :=
  let snapshotAct := StreamAction.emit (.snapshot conversation_data user_message_data
    assistant_message_id "streaming" "")
  let startActs := if should_commit_on_start then [StreamAction.startBackgroundCommit] else []
  let joinActs := if should_commit_on_start then [StreamAction.awaitBackgroundCommit] else []
  let (deltaActs, buffer) := forwardDeltas conversation_data.id assistant_message_id events
  let content := String.join buffer
  let doneAct := StreamAction.emit
    (.chunk conversation_data.id assistant_message_id "" true)
  if gatewayRaises then
    match dbGetMessage db assistant_message_id with
    | some _ =>
      let db' := updateMessage db assistant_message_id (fun m =>
        { m with status := MessageStatus.failed.value, content := some content })
      ([snapshotAct] ++ startActs ++ deltaActs
        ++ joinActs ++ [StreamAction.commit, doneAct], db')
    | none =>
      ([snapshotAct] ++ startActs ++ deltaActs ++ joinActs ++ [doneAct], db)
  else
    match dbGetMessage db assistant_message_id with
    | some _ =>
      let db' := updateMessage db assistant_message_id (fun m =>
        { m with content := some content, status := MessageStatus.completed.value,
                 tokens := pySplitLen content })
      ([snapshotAct] ++ startActs ++ deltaActs
        ++ joinActs ++ [StreamAction.commit, doneAct], db')
    | none =>
      ([snapshotAct] ++ startActs ++ deltaActs ++ joinActs ++ [doneAct], db)

/-- The `chat_stream` endpoint from `app/api/v1/chat.py`: validate, resolve the
conversation, add the completed user message and the `pending` assistant
placeholder (flush only — the commit is deferred to the generator, which is
started with `should_commit_on_start=True`), then run the streaming generator.
Like `chat`, it returns the outcome plus the session state left behind. -/
def chat_stream (prompt : ChatPrompt) (db : ChatDb) (current_user_id : Nat)
    (fresh_conv_id fresh_user_msg_id fresh_asst_msg_id : Nat)
    (events : List GatewayEvent) (gatewayRaises : Bool) :
    Except HTTPException (List StreamAction) × ChatDb :=
  let last_message := prompt.get_last_message_content
  if pyStrip last_message = "" then
    (.error { status_code := 400, detail := "Message text cannot be empty" }, db)
  else
    match _resolve_conversation prompt db current_user_id fresh_conv_id with
    | .error e => (.error e, db)
    | .ok (conversation, db1) =>
      let user_message : MessageRow :=
        { id := fresh_user_msg_id
          conversation_id := conversation.id
          author_id := some (prompt.author_id.getD current_user_id)
          role := MessageRole.user.value
          content := some last_message
          tokens := 0
          status := MessageStatus.completed.value
          provider_meta := _build_message_metadata prompt }
      let assistant_message : MessageRow :=
        { id := fresh_asst_msg_id
          conversation_id := conversation.id
          author_id := none
          role := MessageRole.assistant.value
          content := some ""
          tokens := 0
          status := MessageStatus.pending.value
          provider_meta := none }
      let db2 := { db1 with messages := db1.messages ++ [user_message, assistant_message] }
      let (trace, db3) := _stream_agent_response_optimized conversation user_message
        fresh_asst_msg_id db2 true events gatewayRaises
      (.ok trace, db3)

/-! ## Data model: `app/models/user.py`, `app/models/refresh_token.py`,
`app/schema/auth.py` -/

/-- A row of the `users` table (`app/models/user.py`); the OAuth columns and
timestamps are not touched by the flows under proof and are omitted. -/
structure UserRow where
  id : Nat
  email : String
  password_hash : Option String
  name : Option String
  is_email_verified : Bool
  avatar_url : Option String
deriving DecidableEq, Repr

/-- A row of the `refresh_tokens` table (`app/models/refresh_token.py`):
the owning user, the sha256 hash of the raw token (never the raw value),
the expiry instant and the revoked flag. -/
structure RefreshTokenRow where
  user_id : Nat
  token_hash : String
  expires_at : Int
  revoked : Bool
deriving DecidableEq, Repr

/-- The credential portion of the relational store. -/
structure AuthDb where
  users : List UserRow
  refresh_tokens : List RefreshTokenRow
deriving DecidableEq, Repr

/-- Model of `TokenResponse` from `app/schema/auth.py`. -/
structure TokenResponse where
  access_token : String
  refresh_token : String
  token_type : String
deriving DecidableEq, Repr

/-- Model of `UserRegister` from `app/schema/auth.py` (email/password/name body). -/
structure UserRegister where
  email : String
  password : String
  name : Option String
deriving DecidableEq, Repr

/-- The pydantic length bounds on `UserRegister.password`
(`Field(..., min_length=8, max_length=100)`, counted in characters). -/
def userRegisterPasswordValid (password : String) : Bool :=
  8 ≤ password.length && password.length ≤ 100

/-- Model of `UserResponse` from `app/schema/user.py`, as constructed by the
`/auth/register` endpoint (`created_at` omitted).  It has no token fields. -/
structure UserResponse where
  id : Nat
  email : String
  name : Option String
  is_email_verified : Bool
  avatar_url : Option String
deriving DecidableEq, Repr

/-- The claims of a decoded JWT that the code reads: `payload.get("type")` and
`payload.get("sub")` (the subject is the stringified user UUID, modelled as the
`Nat` user id). -/
structure TokenPayload where
  type : Option String
  sub : Option Nat
deriving DecidableEq, Repr

/-- The cryptographic collaborators of the token lifecycle, passed in as
abstract functions.  `create_access_token`, `create_refresh_token` and
`decode_token` live in `app/utils/jwt.py`, which is not under `src/` (only its
callers are); modelled from the spec: signed credentials carrying
subject=user-id and a token type, with `decode_token` returning `none` when
verification fails.  `hash_token` is the sha256 hex digest from
`app/core/security.py`, treated as an opaque function of the raw token. -/
structure TokenCrypto where
  create_access_token : Nat → String → String
  create_refresh_token : Nat → String
  decode_token : String → Option TokenPayload
  hash_token : String → String

/-! ## `app/core/security.py` -/

/-- Python `s.encode("utf-8")`: the UTF-8 byte sequence of a string, with
bytes as `Nat` values. -/
def utf8Bytes (s : String) : List Nat :=
  s.data.flatMap (fun c => (String.utf8EncodeChar c).map (fun b => b.toNat))

/-- Model of `hash_password` from `app/core/security.py`: truncate the UTF-8 encoding of
the password to 72 bytes when longer (the bcrypt limitation), then call
`bcrypt.hashpw` (abstract, with salt from `bcrypt.gensalt()`). -/
def hash_password (bcrypt_hashpw : List Nat → String → String) (salt : String)
    (password : String) : String :=
  let password_bytes := utf8Bytes password
  let password_bytes :=
    if password_bytes.length > 72 then password_bytes.take 72 else password_bytes
  bcrypt_hashpw password_bytes salt

/-- Model of `verify_password` from `app/core/security.py`: same 72-byte truncation of
the plain password, then `bcrypt.checkpw` (abstract) against the stored hash. -/
def verify_password (bcrypt_checkpw : List Nat → String → Bool)
    (plain_password : String) (hashed_password : String) : Bool :=
  let password_bytes := utf8Bytes plain_password
  let password_bytes :=
    if password_bytes.length > 72 then password_bytes.take 72 else password_bytes
  bcrypt_checkpw password_bytes hashed_password

/-- The `credentials_exception` raised by `get_current_user`. -/
def credentials_exception : HTTPException :=
  { status_code := 401, detail := "Could not validate credentials" }

/-- The module-level `_user_cache` dict from `app/core/security.py`: user id →
(user snapshot, fetch instant), as an association list keyed uniquely. -/
abbrev UserCache : Type := List (Nat × UserRow × Int)

/-- Dict membership/lookup `_user_cache[user_id]`. -/
def cacheLookup (cache : UserCache) (user_id : Nat) : Option (UserRow × Int) :=
  (List.find? (fun e => e.1 == user_id) cache).map (fun e => e.2)

/-- Dict assignment `_user_cache[user_id] = (user, now)`: replace the entry for
the key if present, append otherwise. -/
def cacheInsert (cache : UserCache) (user_id : Nat) (v : UserRow × Int) : UserCache :=
  if (List.find? (fun e => e.1 == user_id) cache).isSome then
    List.map (fun e => if e.1 == user_id then (user_id, v) else e) cache
  else
    cache ++ [(user_id, v)]

/-- The `_CACHE_TTL` constant from `app/core/security.py` (seconds). -/
def _CACHE_TTL : Int := 300

/-- Model of `get_current_user` from `app/core/security.py`: decode the bearer token
(failures become the credentials exception), require type `"access"` and a
subject, then answer from the cache when the entry is younger than the TTL and
otherwise fetch the user from the store (401 when absent) and write the cache
entry.  Returns the resolved user together with the cache state left behind. -/
def get_current_user (decode_token : String → Option TokenPayload) (token : String)
    (cache : UserCache) (now : Int) (db : AuthDb) :
    Except HTTPException (UserRow × UserCache) :=
  match decode_token token with
  | none => .error credentials_exception
  | some payload =>
    if payload.type ≠ some "access" then .error credentials_exception
    else
      match payload.sub with
      | none => .error credentials_exception
      | some user_id =>
        let fetch : Except HTTPException (UserRow × UserCache) :=
          match db.users.find? (fun u => u.id == user_id) with
          | none => .error credentials_exception
          | some user => .ok (user, cacheInsert cache user_id (user, now))
        match cacheLookup cache user_id with
        | some (cached_user, cached_time) =>
          if now - cached_time < _CACHE_TTL then .ok (cached_user, cache) else fetch
        | none => fetch

/-! ## `app/services/auth_service.py` -/

/-- The `settings.refresh_token_expire_days` default (`app/core/config.py`). -/
def refresh_token_expire_days : Int := 7

/-- Model of `AuthService._generate_tokens`: create the access and refresh tokens for
the user, insert one `RefreshToken` row holding the *hash* of the refresh token
with expiry `now + refresh_token_expire_days`, and commit.  The returned store
state is the state this commit makes observable. -/
def _generate_tokens (tc : TokenCrypto) (user : UserRow) (db : AuthDb)
    (now : Int) : TokenResponse × AuthDb :=
  let access_token := tc.create_access_token user.id user.email
  let refresh_token := tc.create_refresh_token user.id
  let token_hash := tc.hash_token refresh_token
  let expires_at := now + refresh_token_expire_days * 86400
  let refresh_token_record : RefreshTokenRow :=
    { user_id := user.id, token_hash := token_hash, expires_at := expires_at, revoked := false }
  ({ access_token := access_token, refresh_token := refresh_token, token_type := "bearer" },
   { db with refresh_tokens := db.refresh_tokens ++ [refresh_token_record] })

/-- The validation prefix of `AuthService.refresh_access_token` (everything
before any write): decode the refresh token, require type `"refresh"` and a
subject, look up a non-revoked `RefreshToken` row by the hash of the raw token,
reject when expired, and fetch the owning user.  Mirrors the source's error
details and their order. -/
def refresh_validate (tc : TokenCrypto) (refresh_token : String) (db : AuthDb)
    (now : Int) : Except HTTPException (RefreshTokenRow × UserRow) :=
  match tc.decode_token refresh_token with
  | none => .error { status_code := 401, detail := "Invalid token" }
  | some payload =>
    if payload.type ≠ some "refresh" then
      .error { status_code := 401, detail := "Invalid token type" }
    else
      match payload.sub with
      | none => .error { status_code := 401, detail := "Invalid token" }
      | some user_id =>
        let token_hash := tc.hash_token refresh_token
        match db.refresh_tokens.find? (fun r => r.token_hash == token_hash && r.revoked == false) with
        | none => .error { status_code := 401, detail := "Token not found or revoked" }
        | some token_record =>
          if token_record.expires_at < now then
            .error { status_code := 401, detail := "Token expired" }
          else
            match db.users.find? (fun u => u.id == user_id) with
            | none => .error { status_code := 401, detail := "User not found" }
            | some user => .ok (token_record, user)

/-- Model of `token_record.revoked = True; db.add(token_record); await db.commit()`
in `AuthService.refresh_access_token`: the ORM updates exactly the one record
that `result.first()` returned — the *first* non-revoked row carrying the hash
(`token_hash` has no unique constraint, so duplicate-hash rows are possible and
every row past the first match is left untouched).  Between the lookup and this
update the flow only appends a row, so the first non-revoked match at update
time is still the found record. -/
def revoke_token_record : List RefreshTokenRow → String → List RefreshTokenRow
  | [], _ => []
  | r :: rest, token_hash =>
    if r.token_hash == token_hash && r.revoked == false then
      { r with revoked := true } :: rest
    else r :: revoke_token_record rest token_hash

/-- Model of `AuthService.refresh_access_token`: validate, then generate the new pair
(first commit, inside `_generate_tokens`) and only afterwards set the found
record's revoked flag (second commit).  The returned list is the sequence of
store states the two commits make observable, in order. -/
def refresh_access_token (tc : TokenCrypto) (refresh_token : String) (db : AuthDb)
    (now : Int) : Except HTTPException TokenResponse × List AuthDb :=
  match refresh_validate tc refresh_token db now with
  | .error e => (.error e, [])
  | .ok (token_record, user) =>
    let (new_tokens, db1) := _generate_tokens tc user db now
    let revoked_tokens := revoke_token_record db1.refresh_tokens token_record.token_hash
    let db2 := { db1 with refresh_tokens := revoked_tokens }
    (.ok new_tokens, [db1, db2])

/-- Model of the revocation in `AuthService.logout_user`: its select filters on
the hash only (no revoked filter), `result.first()` picks the first such row,
and exactly that one row is updated. -/
def revoke_found_by_hash : List RefreshTokenRow → String → List RefreshTokenRow
  | [], _ => []
  | r :: rest, token_hash =>
    if r.token_hash == token_hash then { r with revoked := true } :: rest
    else r :: revoke_found_by_hash rest token_hash

/-- Model of `AuthService.logout_user`: look the first record up by hash and
revoke that record when found; always answer with the success message. -/
def logout_user (tc : TokenCrypto) (refresh_token : String) (db : AuthDb) :
    String × AuthDb :=
  let token_hash := tc.hash_token refresh_token
  match db.refresh_tokens.find? (fun r => r.token_hash == token_hash) with
  | some _ =>
    ("Successfully logged out",
     { db with refresh_tokens := revoke_found_by_hash db.refresh_tokens token_hash })
  | none => ("Successfully logged out", db)

/-- Model of `AuthService.register_user`: reject an already-registered email, insert the
new user with the bcrypt password hash, commit, re-select the user by id for
token generation (an `AttributeError` on `None` — a 500 — would follow if the
re-select found nothing), then `_generate_tokens`.  Returns the created user
and the token pair, plus the resulting store. -/
def register_user (tc : TokenCrypto) (bcrypt_hashpw : List Nat → String → String)
    (salt : String) (user_data : UserRegister) (db : AuthDb) (now : Int)
    (fresh_user_id : Nat) : Except HTTPException ((UserRow × TokenResponse) × AuthDb) :=
  match db.users.find? (fun u => u.email == user_data.email) with
  | some _ => .error { status_code := 400, detail := "Email already registered" }
  | none =>
    let hashed_password := hash_password bcrypt_hashpw salt user_data.password
    let new_user : UserRow :=
      { id := fresh_user_id, email := user_data.email,
        password_hash := some hashed_password, name := user_data.name,
        is_email_verified := false, avatar_url := none }
    let db1 := { db with users := db.users ++ [new_user] }
    match db1.users.find? (fun u => u.id == fresh_user_id) with
    | none => .error { status_code := 500, detail := "AttributeError" }
    | some user_for_tokens =>
      let (tokens, db2) := _generate_tokens tc user_for_tokens db1 now
      .ok ((new_user, tokens), db2)

/-! ## `app/api/v1/auth.py` -/

/-- The `/auth/register` endpoint: delegate to `AuthService.register_user` and
build the response solely from the created user's fields — the generated
`TokenResponse` is dropped on the floor, although the endpoint's own docstring
promises "the created user and authentication tokens". -/
def register (tc : TokenCrypto) (bcrypt_hashpw : List Nat → String → String)
    (salt : String) (user_data : UserRegister) (db : AuthDb) (now : Int)
    (fresh_user_id : Nat) : Except HTTPException (UserResponse × AuthDb) :=
  match register_user tc bcrypt_hashpw salt user_data db now fresh_user_id with
  | .error e => .error e
  | .ok ((user, _tokens), db') =>
    .ok ({ id := user.id, email := user.email, name := user.name,
           is_email_verified := user.is_email_verified,
           avatar_url := user.avatar_url }, db')

/-! ## Shared helper lemmas -/

/-- A conversation-table lookup by id and owner fails when no row with that id
is owned by that user. -/
theorem conversations_find?_none (db : ChatDb) (cid uid : Nat)
    (h : ∀ c ∈ db.conversations, c.id = cid → c.user_id ≠ uid) :
    db.conversations.find? (fun c => c.id == cid && c.user_id == uid) = none := by
  apply List.find?_eq_none.mpr
  intro c hc
  simp only [Bool.and_eq_true, beq_iff_eq, not_and]
  exact fun h1 => h c hc h1

/-- The non-empty text deltas of a gateway event sequence, in order — the
deltas the streaming loop forwards and buffers. -/
def nonEmptyDeltas (events : List GatewayEvent) : List String :=
  events.filterMap (fun e => match e with
    | .other => none
    | .textDelta d => if d = "" then none else some d)

/-- The events a trace flushes to the client, in order. -/
def emittedEvents (trace : List StreamAction) : List SSE :=
  trace.filterMap (fun a => match a with | .emit e => some e | _ => none)

/-- The delta payloads of the `done=False` chunks of a trace, in order — what
the client observes as the incremental answer. -/
def deltaPayloads (trace : List StreamAction) : List String :=
  trace.filterMap (fun a => match a with
    | .emit (.chunk _ _ d false) => some d
    | _ => none)

/-- Whether an event is the named snapshot event. -/
def SSE.isSnapshot : SSE → Bool
  | .snapshot .. => true
  | .chunk .. => false

/-- Whether an event carries `done=True`. -/
def SSE.isDone : SSE → Bool
  | .snapshot .. => false
  | .chunk _ _ _ done => done

/-- The user-message row both chat endpoints persist (abbreviation for the
row literal appearing in `chat` and `chat_stream`). -/
def userMessageOf (prompt : ChatPrompt) (conversation : ConversationRow)
    (current_user_id fresh_user_msg_id : Nat) : MessageRow :=
  { id := fresh_user_msg_id
    conversation_id := conversation.id
    author_id := some (prompt.author_id.getD current_user_id)
    role := MessageRole.user.value
    content := some prompt.get_last_message_content
    tokens := 0
    status := MessageStatus.completed.value
    provider_meta := _build_message_metadata prompt }

/-- The assistant row as the streaming generator leaves it: the buffered
content with status `failed` when the gateway raised, or the buffered content
with status `completed` and the token estimate on success. -/
def finalAssistantRow (conversation : ConversationRow) (fresh_asst_msg_id : Nat)
    (content : String) (gatewayRaises : Bool) : MessageRow :=
  if gatewayRaises then
    { id := fresh_asst_msg_id, conversation_id := conversation.id, author_id := none,
      role := MessageRole.assistant.value, content := some content, tokens := 0,
      status := MessageStatus.failed.value, provider_meta := none }
  else
    { id := fresh_asst_msg_id, conversation_id := conversation.id, author_id := none,
      role := MessageRole.assistant.value, content := some content,
      tokens := pySplitLen content,
      status := MessageStatus.completed.value, provider_meta := none }

theorem forwardDeltas_eq (cid mid : Nat) (events : List GatewayEvent) :
    forwardDeltas cid mid events =
      ((nonEmptyDeltas events).map (fun d => StreamAction.emit (.chunk cid mid d false)),
       nonEmptyDeltas events) := by
  induction events with
  | nil => rfl
  | cons e rest ih =>
    cases e with
    | other => simpa [forwardDeltas, nonEmptyDeltas, List.filterMap_cons] using ih
    | textDelta d =>
      by_cases hd : d = "" <;>
        simp [forwardDeltas, nonEmptyDeltas, List.filterMap_cons, hd, ih]

theorem map_update_fresh (msgs : List MessageRow) (faid : Nat) (f : MessageRow → MessageRow)
    (hfresh : ∀ m ∈ msgs, m.id ≠ faid) :
    msgs.map (fun m => if m.id = faid then f m else m) = msgs := by
  induction msgs with
  | nil => rfl
  | cons m rest ih =>
    have hm : m.id ≠ faid := hfresh m (by simp)
    simp [hm, ih (fun x hx => hfresh x (by simp [hx]))]

/-- Full characterization of a `chat_stream` run that passes validation and
conversation resolution, covering both termination modes: the trace is the
snapshot, the background-commit start, the forwarded non-empty deltas, the
join, the final commit and the terminal `done=True` chunk; the store ends with
the user row and the reconciled assistant row appended. -/
theorem chat_stream_run (prompt : ChatPrompt) (db : ChatDb) (current_user_id : Nat)
    (fcid fuid faid : Nat) (events : List GatewayEvent) (gatewayRaises : Bool)
    (conversation : ConversationRow) (db1 : ChatDb)
    (hne : pyStrip prompt.get_last_message_content ≠ "")
    (hres : _resolve_conversation prompt db current_user_id fcid = .ok (conversation, db1))
    (hfresh : ∀ m ∈ db1.messages, m.id ≠ faid)
    (hneq : fuid ≠ faid) :
    chat_stream prompt db current_user_id fcid fuid faid events gatewayRaises =
      (.ok ([.emit (.snapshot conversation
              (userMessageOf prompt conversation current_user_id fuid) faid "streaming" ""),
            .startBackgroundCommit]
            ++ (nonEmptyDeltas events).map
                (fun d => .emit (.chunk conversation.id faid d false))
            ++ [.awaitBackgroundCommit, .commit,
                .emit (.chunk conversation.id faid "" true)]),
       { db1 with messages := db1.messages ++
          [userMessageOf prompt conversation current_user_id fuid,
           finalAssistantRow conversation faid
             (String.join (nonEmptyDeltas events)) gatewayRaises] }) := by
  have hnone : db1.messages.find? (fun m => m.id == faid) = none :=
    List.find?_eq_none.mpr (fun m hm => by simpa using hfresh m hm)
  cases gatewayRaises <;>
  · simp [chat_stream, _stream_agent_response_optimized, dbGetMessage, updateMessage,
      forwardDeltas_eq, userMessageOf, finalAssistantRow, hres, hne, hnone, hneq, hfresh]
    exact map_update_fresh db1.messages faid _ hfresh

theorem deltaPayloads_append (xs ys : List StreamAction) :
    deltaPayloads (xs ++ ys) = deltaPayloads xs ++ deltaPayloads ys := by
  simp [deltaPayloads, List.filterMap_append]

theorem deltaPayloads_chunks (cid mid : Nat) (l : List String) :
    deltaPayloads (l.map (fun d => StreamAction.emit (.chunk cid mid d false))) = l := by
  induction l with
  | nil => rfl
  | cons d rest ih => simpa [deltaPayloads, List.filterMap_cons] using ih

theorem emittedEvents_append (xs ys : List StreamAction) :
    emittedEvents (xs ++ ys) = emittedEvents xs ++ emittedEvents ys := by
  simp [emittedEvents, List.filterMap_append]

theorem emittedEvents_chunks (cid mid : Nat) (l : List String) :
    emittedEvents (l.map (fun d => StreamAction.emit (.chunk cid mid d false))) =
      l.map (fun d => SSE.chunk cid mid d false) := by
  induction l with
  | nil => rfl
  | cons d rest ih => simpa [emittedEvents, List.filterMap_cons] using ih

theorem filter_isSnapshot_chunks (cid mid : Nat) (l : List String) (done : Bool) :
    ((l.map (fun d => SSE.chunk cid mid d done)).filter (fun e => SSE.isSnapshot e)) = [] := by
  induction l with
  | nil => rfl
  | cons d rest ih => simp [SSE.isSnapshot, ih]

theorem filter_isDone_chunks_false (cid mid : Nat) (l : List String) :
    ((l.map (fun d => SSE.chunk cid mid d false)).filter (fun e => SSE.isDone e)) = [] := by
  induction l with
  | nil => rfl
  | cons d rest ih => simp [SSE.isDone, ih]

/-! ## Claim theorems -/

/-- C9: a chat request (synchronous or streaming) whose text is empty or
blank is rejected with a 400 `InvalidRequest` error, and the session state it
leaves behind is exactly the input state: no conversation or message row is
created or modified. -/
theorem C9_blank_text_rejected_without_mutation (prompt : ChatPrompt) (db : ChatDb)
    (current_user_id : Nat) (final_output : Option String)
    (f1 f2 f3 : Nat) (events : List GatewayEvent) (gatewayRaises : Bool)
    (hblank : pyStrip prompt.get_last_message_content = "") :
    chat prompt db current_user_id final_output f1 f2 f3 =
      (.error { status_code := 400, detail := "Message text cannot be empty" }, db) ∧
    chat_stream prompt db current_user_id f1 f2 f3 events gatewayRaises =
      (.error { status_code := 400, detail := "Message text cannot be empty" }, db) := by
  constructor <;> simp [chat, chat_stream, hblank]

/-- Witness for C9 at a concrete blank request. -/
theorem C9_blank_text_rejected_without_mutation_witness :
    chat { conversation_id := none, author_id := none, text := "  ",
           metadata := none, tags := [] }
        { conversations := [], messages := [] } 1 (some "hi") 10 11 12 =
      (.error { status_code := 400, detail := "Message text cannot be empty" },
       { conversations := [], messages := [] }) :=
  (C9_blank_text_rejected_without_mutation
    { conversation_id := none, author_id := none, text := "  ",
      metadata := none, tags := [] }
    { conversations := [], messages := [] } 1 (some "hi") 10 11 12 [] false
    (by decide)).1

/-- C6: a chat request naming a conversation that is absent, or present but
owned by another user, fails with the one fixed `NotFound` response (so the two
cases are observably identical and no conversation data is returned), on both
the synchronous and the streaming endpoint. -/
theorem C6_foreign_conversation_not_found (prompt : ChatPrompt) (db : ChatDb)
    (current_user_id cid : Nat) (final_output : Option String)
    (f1 f2 f3 : Nat) (events : List GatewayEvent) (gatewayRaises : Bool)
    (hcid : prompt.conversation_id = some cid)
    (hne : pyStrip prompt.get_last_message_content ≠ "")
    (hforeign : ∀ c ∈ db.conversations, c.id = cid → c.user_id ≠ current_user_id) :
    chat prompt db current_user_id final_output f1 f2 f3 =
      (.error { status_code := 404, detail := "Conversation not found" }, db) ∧
    chat_stream prompt db current_user_id f1 f2 f3 events gatewayRaises =
      (.error { status_code := 404, detail := "Conversation not found" }, db) := by
  have hfind := conversations_find?_none db cid current_user_id hforeign
  constructor <;> simp [chat, chat_stream, _resolve_conversation, hcid, hfind, hne]

/-- Witness for C6: user 1 asks for conversation 5, which exists but belongs
to user 2 in the first store and does not exist in the second; both runs
produce the same `NotFound` outcome. -/
theorem C6_foreign_conversation_not_found_witness :
    chat { conversation_id := some 5, author_id := none, text := "hi",
           metadata := none, tags := [] }
        { conversations := [{ id := 5, user_id := 2, title := none, model := "gpt-4o-mini" }],
          messages := [] } 1 (some "ok") 10 11 12 =
      (.error { status_code := 404, detail := "Conversation not found" },
       { conversations := [{ id := 5, user_id := 2, title := none, model := "gpt-4o-mini" }],
         messages := [] }) ∧
    chat_stream { conversation_id := some 5, author_id := none, text := "hi",
                  metadata := none, tags := [] }
        { conversations := [], messages := [] } 1 10 11 12 [] false =
      (.error { status_code := 404, detail := "Conversation not found" },
       { conversations := [], messages := [] }) :=
  ⟨(C6_foreign_conversation_not_found
      { conversation_id := some 5, author_id := none, text := "hi",
        metadata := none, tags := [] }
      { conversations := [{ id := 5, user_id := 2, title := none, model := "gpt-4o-mini" }],
        messages := [] } 1 5 (some "ok") 10 11 12 [] false rfl (by decide) (by decide)).1,
   (C6_foreign_conversation_not_found
      { conversation_id := some 5, author_id := none, text := "hi",
        metadata := none, tags := [] }
      { conversations := [], messages := [] } 1 5 (some "ok") 10 11 12 [] false
      rfl (by decide) (by decide)).2⟩

/-- C7: identity resolution.  (i) The request is rejected with the 401
credentials exception unless the token decodes with type `"access"` and a
subject.  (ii) With a cache entry for the subject younger than the 300-second
TTL the cached user is returned, the cache is left unchanged, and the store is
never queried (the outcome is independent of the store contents).  (iii)
Otherwise the user is fetched from the store — 401 when absent — and the cache
entry for the subject is set to the fetched user with the current instant. -/
theorem C7_identity_resolution (decode_token : String → Option TokenPayload)
    (token : String) (cache : UserCache) (now : Int) (db : AuthDb) :
    ((decode_token token = none ∨
        ∃ p, decode_token token = some p ∧ (p.type ≠ some "access" ∨ p.sub = none)) →
      get_current_user decode_token token cache now db = .error credentials_exception) ∧
    (∀ p user_id user t, decode_token token = some p → p.type = some "access" →
      p.sub = some user_id → cacheLookup cache user_id = some (user, t) →
      now - t < _CACHE_TTL →
      get_current_user decode_token token cache now db = .ok (user, cache) ∧
      ∀ db2 : AuthDb, get_current_user decode_token token cache now db2 =
        get_current_user decode_token token cache now db) ∧
    (∀ p user_id, decode_token token = some p → p.type = some "access" →
      p.sub = some user_id →
      (∀ user t, cacheLookup cache user_id = some (user, t) → ¬ now - t < _CACHE_TTL) →
      get_current_user decode_token token cache now db =
        match db.users.find? (fun u => u.id == user_id) with
        | none => .error credentials_exception
        | some user => .ok (user, cacheInsert cache user_id (user, now))) := by
  refine ⟨?_, ?_, ?_⟩
  · rintro (hdec | ⟨p, hdec, htype | hsub⟩)
    · simp [get_current_user, hdec]
    · simp [get_current_user, hdec, htype]
    · rcases htype : p.type with _ | ty
      · simp [get_current_user, hdec, htype]
      · by_cases hty : ty = "access"
        · subst hty
          simp [get_current_user, hdec, htype, hsub]
        · simp [get_current_user, hdec, htype, hty]
  · intro p user_id user t hdec htype hsub hcache hfresh
    refine ⟨?_, fun db2 => ?_⟩ <;>
      simp [get_current_user, hdec, htype, hsub, hcache, hfresh]
  · intro p user_id hdec htype hsub hstale
    rcases hcache : cacheLookup cache user_id with _ | ⟨user, t⟩
    · simp [get_current_user, hdec, htype, hsub, hcache]
    · have := hstale user t hcache
      simp [get_current_user, hdec, htype, hsub, hcache, this]

/-- Witness for C7: a fresh cache entry for subject 1 answers the request from
the cache against an empty store. -/
theorem C7_identity_resolution_witness :
    get_current_user
      (fun s => if s = "tok" then some { type := some "access", sub := some 1 } else none)
      "tok"
      [(1, { id := 1, email := "a@example.com", password_hash := none, name := none,
             is_email_verified := false, avatar_url := none }, 50)]
      100 { users := [], refresh_tokens := [] } =
    .ok ({ id := 1, email := "a@example.com", password_hash := none, name := none,
           is_email_verified := false, avatar_url := none },
         [(1, { id := 1, email := "a@example.com", password_hash := none, name := none,
                is_email_verified := false, avatar_url := none }, 50)]) :=
  ((C7_identity_resolution
      (fun s => if s = "tok" then some { type := some "access", sub := some 1 } else none)
      "tok"
      [(1, { id := 1, email := "a@example.com", password_hash := none, name := none,
             is_email_verified := false, avatar_url := none }, 50)]
      100 { users := [], refresh_tokens := [] }).2.1
    { type := some "access", sub := some 1 }
    1
    { id := 1, email := "a@example.com", password_hash := none, name := none,
      is_email_verified := false, avatar_url := none }
    50 (by decide) rfl rfl (by decide) (by decide)).1

/-- C10: password authentication only covers the first 72 UTF-8 bytes.
Assuming bcrypt's round-trip contract (`checkpw b (hashpw b salt) = true`):
every password verifies against its own hash; any two passwords whose UTF-8
encodings agree on the first 72 bytes verify against each other's hashes; and
there are distinct passwords that both satisfy the registration schema's
8..100-character bounds yet share their first 72 bytes. -/
theorem C10_password_72_byte_truncation
    (bcrypt_hashpw : List Nat → String → String)
    (bcrypt_checkpw : List Nat → String → Bool) (salt : String)
    (hbcrypt : ∀ b s, bcrypt_checkpw b (bcrypt_hashpw b s) = true) :
    (∀ p, verify_password bcrypt_checkpw p (hash_password bcrypt_hashpw salt p) = true) ∧
    (∀ p q, (utf8Bytes p).take 72 = (utf8Bytes q).take 72 →
      verify_password bcrypt_checkpw p (hash_password bcrypt_hashpw salt q) = true) ∧
    (∃ p q, userRegisterPasswordValid p = true ∧ userRegisterPasswordValid q = true ∧
      p ≠ q ∧ (utf8Bytes p).take 72 = (utf8Bytes q).take 72) := by
  have htrunc : ∀ s : String,
      (if (utf8Bytes s).length > 72 then (utf8Bytes s).take 72 else utf8Bytes s) =
        (utf8Bytes s).take 72 := by
    intro s
    by_cases h : (utf8Bytes s).length > 72
    · simp [h]
    · simp [h, List.take_of_length_le (Nat.le_of_not_lt h)]
  refine ⟨?_, ?_, ?_⟩
  · intro p
    simpa [verify_password, hash_password, htrunc] using
      hbcrypt ((utf8Bytes p).take 72) salt
  · intro p q hpq
    simp only [verify_password, hash_password, htrunc]
    rw [hpq]
    exact hbcrypt ((utf8Bytes q).take 72) salt
  · refine ⟨"aaaaaaaaaaaaaaaaaaaaaaaaaaaaaaaaaaaaaaaaaaaaaaaaaaaaaaaaaaaaaaaaaaaaaaaa11111111",
            "aaaaaaaaaaaaaaaaaaaaaaaaaaaaaaaaaaaaaaaaaaaaaaaaaaaaaaaaaaaaaaaaaaaaaaaa22222222",
            by decide, by decide, by decide, by decide⟩

/-- Witness for C10 with a concrete stand-in bcrypt satisfying the round-trip
contract, and a concrete password pair differing only beyond byte 72. -/
theorem C10_password_72_byte_truncation_witness :
    verify_password (fun b h => decide (h = toString b))
      "aaaaaaaaaaaaaaaaaaaaaaaaaaaaaaaaaaaaaaaaaaaaaaaaaaaaaaaaaaaaaaaaaaaaaaaa11111111"
      (hash_password (fun b _ => toString b) "somesalt"
        "aaaaaaaaaaaaaaaaaaaaaaaaaaaaaaaaaaaaaaaaaaaaaaaaaaaaaaaaaaaaaaaaaaaaaaaa22222222") =
      true :=
  (C10_password_72_byte_truncation (fun b _ => toString b)
      (fun b h => decide (h = toString b)) "somesalt"
      (fun b s => by simp)).2.1
    "aaaaaaaaaaaaaaaaaaaaaaaaaaaaaaaaaaaaaaaaaaaaaaaaaaaaaaaaaaaaaaaaaaaaaaaa11111111"
    "aaaaaaaaaaaaaaaaaaaaaaaaaaaaaaaaaaaaaaaaaaaaaaaaaaaaaaaaaaaaaaaaaaaaaaaa22222222"
    (by decide)

/-- C2: on the streaming chat path, the delta events forwarded to the client
are exactly the non-empty gateway deltas, in order (empty deltas skipped, none
reordered or merged), and on successful termination the stored assistant
message's content is their character-for-character concatenation with status
`completed`. -/
theorem C2_streaming_order_and_concatenation (prompt : ChatPrompt) (db : ChatDb)
    (current_user_id fcid fuid faid : Nat) (events : List GatewayEvent)
    (conversation : ConversationRow) (db1 : ChatDb)
    (trace : List StreamAction) (dbFinal : ChatDb)
    (hne : pyStrip prompt.get_last_message_content ≠ "")
    (hres : _resolve_conversation prompt db current_user_id fcid = .ok (conversation, db1))
    (hfresh : ∀ m ∈ db1.messages, m.id ≠ faid)
    (hneq : fuid ≠ faid)
    (hrun : chat_stream prompt db current_user_id fcid fuid faid events false =
      (.ok trace, dbFinal)) :
    deltaPayloads trace = nonEmptyDeltas events ∧
    dbGetMessage dbFinal faid = some
      { id := faid, conversation_id := conversation.id, author_id := none,
        role := MessageRole.assistant.value,
        content := some (String.join (nonEmptyDeltas events)),
        tokens := pySplitLen (String.join (nonEmptyDeltas events)),
        status := MessageStatus.completed.value, provider_meta := none } := by
  have hspec := chat_stream_run prompt db current_user_id fcid fuid faid events false
    conversation db1 hne hres hfresh hneq
  rw [hrun] at hspec
  simp only [Prod.mk.injEq, Except.ok.injEq] at hspec
  obtain ⟨htr, hdb⟩ := hspec
  subst htr hdb
  have hnone : db1.messages.find? (fun m => m.id == faid) = none :=
    List.find?_eq_none.mpr (fun m hm => by simpa using hfresh m hm)
  constructor
  · rw [deltaPayloads_append, deltaPayloads_append, deltaPayloads_chunks]
    simp [deltaPayloads]
  · simp [dbGetMessage, List.find?_append, hnone, userMessageOf, finalAssistantRow, hneq]

/-- Witness for C2: gateway deltas "Hel", "lo" against an empty store; the
client sees exactly ["Hel", "lo"] and the stored assistant message holds
"Hello" with status completed. -/
theorem C2_streaming_order_and_concatenation_witness :
    deltaPayloads
      [.emit (.snapshot { id := 10, user_id := 1, title := some "hello", model := "gpt-4o-mini" }
          { id := 11, conversation_id := 10, author_id := some 1, role := "user",
            content := some "hello", tokens := 0, status := "completed", provider_meta := none }
          12 "streaming" ""),
       .startBackgroundCommit,
       .emit (.chunk 10 12 "Hel" false), .emit (.chunk 10 12 "lo" false),
       .awaitBackgroundCommit, .commit, .emit (.chunk 10 12 "" true)] = ["Hel", "lo"] ∧
    dbGetMessage
      { conversations := [{ id := 10, user_id := 1, title := some "hello", model := "gpt-4o-mini" }],
        messages :=
          [{ id := 11, conversation_id := 10, author_id := some 1, role := "user",
             content := some "hello", tokens := 0, status := "completed", provider_meta := none },
           { id := 12, conversation_id := 10, author_id := none, role := "assistant",
             content := some "Hello", tokens := 1, status := "completed", provider_meta := none }] }
      12 = some
      { id := 12, conversation_id := 10, author_id := none, role := "assistant",
        content := some "Hello", tokens := 1, status := "completed", provider_meta := none } := by
  have h := C2_streaming_order_and_concatenation
    { conversation_id := none, author_id := none, text := "hello", metadata := none, tags := [] }
    { conversations := [], messages := [] } 1 10 11 12
    [.textDelta "Hel", .textDelta "lo"]
    { id := 10, user_id := 1, title := some "hello", model := "gpt-4o-mini" }
    { conversations := [{ id := 10, user_id := 1, title := some "hello", model := "gpt-4o-mini" }],
      messages := [] }
    [.emit (.snapshot { id := 10, user_id := 1, title := some "hello", model := "gpt-4o-mini" }
        { id := 11, conversation_id := 10, author_id := some 1, role := "user",
          content := some "hello", tokens := 0, status := "completed", provider_meta := none }
        12 "streaming" ""),
     .startBackgroundCommit,
     .emit (.chunk 10 12 "Hel" false), .emit (.chunk 10 12 "lo" false),
     .awaitBackgroundCommit, .commit, .emit (.chunk 10 12 "" true)]
    { conversations := [{ id := 10, user_id := 1, title := some "hello", model := "gpt-4o-mini" }],
      messages :=
        [{ id := 11, conversation_id := 10, author_id := some 1, role := "user",
           content := some "hello", tokens := 0, status := "completed", provider_meta := none },
         { id := 12, conversation_id := 10, author_id := none, role := "assistant",
           content := some "Hello", tokens := 1, status := "completed", provider_meta := none }] }
    (by decide) (by rfl) (by decide) (by decide) (by rfl)
  simpa using h

/-- C3: when the gateway raises after deltas D1..Dk, the streaming run leaves
the assistant message with status `failed` and content the concatenation of
D1..Dk (partial content preserved), the client still receives a terminating
`done=True` event as the last action, and — on either termination path — the
assistant message is never left with status `pending`. -/
theorem C3_midstream_failure_preserves_partial_content (prompt : ChatPrompt) (db : ChatDb)
    (current_user_id fcid fuid faid : Nat) (events : List GatewayEvent)
    (conversation : ConversationRow) (db1 : ChatDb)
    (trace : List StreamAction) (dbFinal : ChatDb)
    (hne : pyStrip prompt.get_last_message_content ≠ "")
    (hres : _resolve_conversation prompt db current_user_id fcid = .ok (conversation, db1))
    (hfresh : ∀ m ∈ db1.messages, m.id ≠ faid)
    (hneq : fuid ≠ faid)
    (hrun : chat_stream prompt db current_user_id fcid fuid faid events true =
      (.ok trace, dbFinal)) :
    dbGetMessage dbFinal faid = some
      { id := faid, conversation_id := conversation.id, author_id := none,
        role := MessageRole.assistant.value,
        content := some (String.join (nonEmptyDeltas events)),
        tokens := 0, status := MessageStatus.failed.value, provider_meta := none } ∧
    trace.getLast? = some (.emit (.chunk conversation.id faid "" true)) ∧
    (∀ (gatewayRaises : Bool) (trace2 : List StreamAction) (dbFinal2 : ChatDb),
      chat_stream prompt db current_user_id fcid fuid faid events gatewayRaises =
        (.ok trace2, dbFinal2) →
      ∀ m, dbGetMessage dbFinal2 faid = some m → m.status ≠ MessageStatus.pending.value) := by
  have hnone : db1.messages.find? (fun m => m.id == faid) = none :=
    List.find?_eq_none.mpr (fun m hm => by simpa using hfresh m hm)
  have hspec := chat_stream_run prompt db current_user_id fcid fuid faid events true
    conversation db1 hne hres hfresh hneq
  rw [hrun] at hspec
  simp only [Prod.mk.injEq, Except.ok.injEq] at hspec
  obtain ⟨htr, hdb⟩ := hspec
  subst htr hdb
  refine ⟨?_, ?_, ?_⟩
  · simp [dbGetMessage, List.find?_append, hnone, userMessageOf, finalAssistantRow, hneq]
  · rw [List.getLast?_append_of_ne_nil _ (by simp)]
    rfl
  · intro gatewayRaises trace2 dbFinal2 hrun2 m hm
    have hspec2 := chat_stream_run prompt db current_user_id fcid fuid faid events
      gatewayRaises conversation db1 hne hres hfresh hneq
    rw [hrun2] at hspec2
    simp only [Prod.mk.injEq, Except.ok.injEq] at hspec2
    obtain ⟨htr2, hdb2⟩ := hspec2
    subst htr2 hdb2
    rw [show dbGetMessage
        { db1 with messages := db1.messages ++
            [userMessageOf prompt conversation current_user_id fuid,
             finalAssistantRow conversation faid
               (String.join (nonEmptyDeltas events)) gatewayRaises] } faid =
        some (finalAssistantRow conversation faid
          (String.join (nonEmptyDeltas events)) gatewayRaises) from by
      cases gatewayRaises <;>
        simp [dbGetMessage, List.find?_append, hnone, userMessageOf, finalAssistantRow, hneq]]
      at hm
    cases hm
    cases gatewayRaises <;> simp [finalAssistantRow, MessageStatus.value]

/-- Witness for C3: the gateway raises after the single delta "Hel"; the
assistant row is failed with content "Hel" and the trace still ends in a
`done=True` event. -/
theorem C3_midstream_failure_preserves_partial_content_witness :
    dbGetMessage
      { conversations := [{ id := 10, user_id := 1, title := some "hello", model := "gpt-4o-mini" }],
        messages :=
          [{ id := 11, conversation_id := 10, author_id := some 1, role := "user",
             content := some "hello", tokens := 0, status := "completed", provider_meta := none },
           { id := 12, conversation_id := 10, author_id := none, role := "assistant",
             content := some "Hel", tokens := 0, status := "failed", provider_meta := none }] }
      12 = some
      { id := 12, conversation_id := 10, author_id := none, role := "assistant",
        content := some "Hel", tokens := 0, status := "failed", provider_meta := none } ∧
    ([.emit (.snapshot { id := 10, user_id := 1, title := some "hello", model := "gpt-4o-mini" }
          { id := 11, conversation_id := 10, author_id := some 1, role := "user",
            content := some "hello", tokens := 0, status := "completed", provider_meta := none }
          12 "streaming" ""),
      .startBackgroundCommit, .emit (.chunk 10 12 "Hel" false),
      .awaitBackgroundCommit, .commit,
      .emit (.chunk 10 12 "" true)] : List StreamAction).getLast? =
      some (.emit (.chunk 10 12 "" true)) := by
  have h := C3_midstream_failure_preserves_partial_content
    { conversation_id := none, author_id := none, text := "hello", metadata := none, tags := [] }
    { conversations := [], messages := [] } 1 10 11 12
    [.textDelta "Hel"]
    { id := 10, user_id := 1, title := some "hello", model := "gpt-4o-mini" }
    { conversations := [{ id := 10, user_id := 1, title := some "hello", model := "gpt-4o-mini" }],
      messages := [] }
    [.emit (.snapshot { id := 10, user_id := 1, title := some "hello", model := "gpt-4o-mini" }
        { id := 11, conversation_id := 10, author_id := some 1, role := "user",
          content := some "hello", tokens := 0, status := "completed", provider_meta := none }
        12 "streaming" ""),
     .startBackgroundCommit, .emit (.chunk 10 12 "Hel" false),
     .awaitBackgroundCommit, .commit, .emit (.chunk 10 12 "" true)]
    { conversations := [{ id := 10, user_id := 1, title := some "hello", model := "gpt-4o-mini" }],
      messages :=
        [{ id := 11, conversation_id := 10, author_id := some 1, role := "user",
           content := some "hello", tokens := 0, status := "completed", provider_meta := none },
         { id := 12, conversation_id := 10, author_id := none, role := "assistant",
           content := some "Hel", tokens := 0, status := "failed", provider_meta := none }] }
    (by decide) (by rfl) (by decide) (by decide) (by rfl)
  exact ⟨h.1, h.2.1⟩

/-- C5: every streaming response trace starts with exactly one snapshot event
carrying the conversation, the user message and a placeholder assistant message
with status "streaming" and empty content — emitted strictly before any
database-commit action — is followed only by `done=False` delta events, and is
terminated by exactly one `done=True` event, on both the success and the
mid-stream-failure path. -/
theorem C5_sse_stream_shape (prompt : ChatPrompt) (db : ChatDb)
    (current_user_id fcid fuid faid : Nat) (events : List GatewayEvent)
    (gatewayRaises : Bool) (conversation : ConversationRow) (db1 : ChatDb)
    (trace : List StreamAction) (dbFinal : ChatDb)
    (hne : pyStrip prompt.get_last_message_content ≠ "")
    (hres : _resolve_conversation prompt db current_user_id fcid = .ok (conversation, db1))
    (hfresh : ∀ m ∈ db1.messages, m.id ≠ faid)
    (hneq : fuid ≠ faid)
    (hrun : chat_stream prompt db current_user_id fcid fuid faid events gatewayRaises =
      (.ok trace, dbFinal)) :
    trace.head? = some (.emit (.snapshot conversation
      (userMessageOf prompt conversation current_user_id fuid) faid "streaming" "")) ∧
    emittedEvents trace =
      .snapshot conversation (userMessageOf prompt conversation current_user_id fuid)
          faid "streaming" "" ::
        ((nonEmptyDeltas events).map (fun d => SSE.chunk conversation.id faid d false) ++
          [SSE.chunk conversation.id faid "" true]) ∧
    ((emittedEvents trace).filter (fun e => SSE.isSnapshot e)).length = 1 ∧
    ((emittedEvents trace).filter (fun e => SSE.isDone e)).length = 1 := by
  have hspec := chat_stream_run prompt db current_user_id fcid fuid faid events
    gatewayRaises conversation db1 hne hres hfresh hneq
  rw [hrun] at hspec
  simp only [Prod.mk.injEq, Except.ok.injEq] at hspec
  obtain ⟨htr, hdb⟩ := hspec
  subst htr hdb
  have hevents : emittedEvents
      ([.emit (.snapshot conversation
          (userMessageOf prompt conversation current_user_id fuid) faid "streaming" ""),
        .startBackgroundCommit]
        ++ (nonEmptyDeltas events).map
            (fun d => StreamAction.emit (.chunk conversation.id faid d false))
        ++ [.awaitBackgroundCommit, .commit,
            .emit (.chunk conversation.id faid "" true)]) =
      .snapshot conversation (userMessageOf prompt conversation current_user_id fuid)
          faid "streaming" "" ::
        ((nonEmptyDeltas events).map (fun d => SSE.chunk conversation.id faid d false) ++
          [SSE.chunk conversation.id faid "" true]) := by
    rw [emittedEvents_append, emittedEvents_append, emittedEvents_chunks]
    simp [emittedEvents]
  refine ⟨rfl, hevents, ?_, ?_⟩
  · rw [hevents]
    rw [List.filter_cons_of_pos (by simp [SSE.isSnapshot]),
      List.filter_append, filter_isSnapshot_chunks]
    simp [SSE.isSnapshot]
  · rw [hevents]
    rw [List.filter_cons_of_neg (by simp [SSE.isDone]),
      List.filter_append, filter_isDone_chunks_false]
    simp [SSE.isDone]

/-- Witness for C5 on a failure-path run with one delta: the full event
sequence is snapshot, one `done=False` chunk, one `done=True` chunk. -/
theorem C5_sse_stream_shape_witness :
    ([.emit (.snapshot { id := 10, user_id := 1, title := some "hello", model := "gpt-4o-mini" }
          { id := 11, conversation_id := 10, author_id := some 1, role := "user",
            content := some "hello", tokens := 0, status := "completed", provider_meta := none }
          12 "streaming" ""),
      .startBackgroundCommit, .emit (.chunk 10 12 "Hel" false),
      .awaitBackgroundCommit, .commit,
      .emit (.chunk 10 12 "" true)] : List StreamAction).head? =
      some (.emit (.snapshot { id := 10, user_id := 1, title := some "hello", model := "gpt-4o-mini" }
        { id := 11, conversation_id := 10, author_id := some 1, role := "user",
          content := some "hello", tokens := 0, status := "completed", provider_meta := none }
        12 "streaming" "")) := by
  have h := C5_sse_stream_shape
    { conversation_id := none, author_id := none, text := "hello", metadata := none, tags := [] }
    { conversations := [], messages := [] } 1 10 11 12
    [.textDelta "Hel"] true
    { id := 10, user_id := 1, title := some "hello", model := "gpt-4o-mini" }
    { conversations := [{ id := 10, user_id := 1, title := some "hello", model := "gpt-4o-mini" }],
      messages := [] }
    [.emit (.snapshot { id := 10, user_id := 1, title := some "hello", model := "gpt-4o-mini" }
        { id := 11, conversation_id := 10, author_id := some 1, role := "user",
          content := some "hello", tokens := 0, status := "completed", provider_meta := none }
        12 "streaming" ""),
     .startBackgroundCommit, .emit (.chunk 10 12 "Hel" false),
     .awaitBackgroundCommit, .commit, .emit (.chunk 10 12 "" true)]
    { conversations := [{ id := 10, user_id := 1, title := some "hello", model := "gpt-4o-mini" }],
      messages :=
        [{ id := 11, conversation_id := 10, author_id := some 1, role := "user",
           content := some "hello", tokens := 0, status := "completed", provider_meta := none },
         { id := 12, conversation_id := 10, author_id := none, role := "assistant",
           content := some "Hel", tokens := 0, status := "failed", provider_meta := none }] }
    (by decide) (by rfl) (by decide) (by decide) (by rfl)
  exact h.1

/-- C4: an authenticated synchronous chat request with non-blank text and no
conversation id creates a new conversation titled with the first 80 characters
of the text, persists the user's message as a completed turn with the given
content, persists the gateway's reply as a completed assistant turn, and
returns the conversation plus both turns; when the gateway produces a
non-blank reply the returned assistant message is non-empty with status
completed. -/
theorem C4_sync_chat_creates_conversation_and_turns (prompt : ChatPrompt) (db : ChatDb)
    (current_user_id : Nat) (final_output : Option String) (fcid fuid faid : Nat)
    (hnoconv : prompt.conversation_id = none)
    (hne : pyStrip prompt.get_last_message_content ≠ "")
    (hreply : pyStrip (final_output.getD "") ≠ "") :
    chat prompt db current_user_id final_output fcid fuid faid =
      (.ok { conversation :=
               { id := fcid, user_id := current_user_id,
                 title := some (prompt.get_last_message_content.take 80),
                 model := "gpt-4o-mini" }
             request_message :=
               { id := fuid, conversation_id := fcid,
                 author_id := some (prompt.author_id.getD current_user_id),
                 role := MessageRole.user.value,
                 content := some prompt.get_last_message_content, tokens := 0,
                 status := MessageStatus.completed.value,
                 provider_meta := _build_message_metadata prompt }
             response_message :=
               { id := faid, conversation_id := fcid, author_id := none,
                 role := MessageRole.assistant.value,
                 content := some (pyStrip (final_output.getD "")),
                 tokens := pySplitLen (pyStrip (final_output.getD "")),
                 status := MessageStatus.completed.value, provider_meta := none } },
       { conversations := db.conversations ++
           [{ id := fcid, user_id := current_user_id,
              title := some (prompt.get_last_message_content.take 80),
              model := "gpt-4o-mini" }],
         messages := db.messages ++
           [{ id := fuid, conversation_id := fcid,
              author_id := some (prompt.author_id.getD current_user_id),
              role := MessageRole.user.value,
              content := some prompt.get_last_message_content, tokens := 0,
              status := MessageStatus.completed.value,
              provider_meta := _build_message_metadata prompt },
            { id := faid, conversation_id := fcid, author_id := none,
              role := MessageRole.assistant.value,
              content := some (pyStrip (final_output.getD "")),
              tokens := pySplitLen (pyStrip (final_output.getD "")),
              status := MessageStatus.completed.value, provider_meta := none }] }) ∧
    pyStrip (final_output.getD "") ≠ "" := by
  have htext : prompt.get_last_message_content ≠ "" := fun h => hne (by rw [h]; rfl)
  refine ⟨?_, hreply⟩
  simp [chat, _resolve_conversation, hnoconv, hne, htext]

/-- Witness for C4: text "hello" with gateway reply " Hi there! " against an
empty store. -/
theorem C4_sync_chat_creates_conversation_and_turns_witness :
    chat { conversation_id := none, author_id := none, text := "hello",
           metadata := none, tags := [] }
        { conversations := [], messages := [] } 1 (some " Hi there! ") 10 11 12 =
      (.ok { conversation :=
               { id := 10, user_id := 1, title := some "hello", model := "gpt-4o-mini" }
             request_message :=
               { id := 11, conversation_id := 10, author_id := some 1, role := "user",
                 content := some "hello", tokens := 0, status := "completed",
                 provider_meta := none }
             response_message :=
               { id := 12, conversation_id := 10, author_id := none, role := "assistant",
                 content := some "Hi there!", tokens := 2, status := "completed",
                 provider_meta := none } },
       { conversations :=
           [{ id := 10, user_id := 1, title := some "hello", model := "gpt-4o-mini" }],
         messages :=
           [{ id := 11, conversation_id := 10, author_id := some 1, role := "user",
              content := some "hello", tokens := 0, status := "completed",
              provider_meta := none },
            { id := 12, conversation_id := 10, author_id := none, role := "assistant",
              content := some "Hi there!", tokens := 2, status := "completed",
              provider_meta := none }] }) := by
  have h := (C4_sync_chat_creates_conversation_and_turns
    { conversation_id := none, author_id := none, text := "hello",
      metadata := none, tags := [] }
    { conversations := [], messages := [] } 1 (some " Hi there! ") 10 11 12
    rfl (by decide) (by decide)).1
  simpa using h

/-- A single-record revocation only touches the first non-revoked match, so it
commutes with rows appended after the match. -/
theorem revoke_token_record_append (l l2 : List RefreshTokenRow) (h : String)
    (hsome : (l.find? (fun r => r.token_hash == h && r.revoked == false)).isSome) :
    revoke_token_record (l ++ l2) h = revoke_token_record l h ++ l2 := by
  induction l with
  | nil => simp [List.find?] at hsome
  | cons r rest ih =>
    by_cases hr : (r.token_hash == h && r.revoked == false) = true
    · simp only [List.cons_append, revoke_token_record, if_pos hr, List.append_eq]
    · have hsome2 : (rest.find? (fun r => r.token_hash == h && r.revoked == false)).isSome := by
        rwa [List.find?_cons_of_neg _ (by simpa using hr)] at hsome
      simp only [List.cons_append, revoke_token_record, if_neg hr, List.append_eq,
        ih hsome2]

/-- A single-record revocation removes exactly one row from the set of
non-revoked rows carrying the hash (the remaining duplicate-hash rows, if any,
stay non-revoked). -/
theorem countP_revoke_token_record (l : List RefreshTokenRow) (h : String)
    (hsome : (l.find? (fun r => r.token_hash == h && r.revoked == false)).isSome) :
    (revoke_token_record l h).countP (fun r => r.token_hash == h && r.revoked == false) + 1 =
      l.countP (fun r => r.token_hash == h && r.revoked == false) := by
  induction l with
  | nil => simp [List.find?] at hsome
  | cons r rest ih =>
    by_cases hr : (r.token_hash == h && r.revoked == false) = true
    · have hupd : (({ r with revoked := true } : RefreshTokenRow).token_hash == h &&
          ({ r with revoked := true } : RefreshTokenRow).revoked == false) = false := by
        simp
      rw [revoke_token_record, if_pos hr, List.countP_cons, List.countP_cons, hupd, hr]
      simp
    · have hsome2 : (rest.find? (fun r => r.token_hash == h && r.revoked == false)).isSome := by
        rwa [List.find?_cons_of_neg _ (by simpa using hr)] at hsome
      rw [revoke_token_record, if_neg hr, List.countP_cons, List.countP_cons]
      have := ih hsome2
      omega

/-- A concrete token-crypto instance for evaluating the token flows: tokens
are tagged strings and the hash appends a marker. -/
def cexTokenCrypto : TokenCrypto :=
  { create_access_token := fun uid email => "access-" ++ toString uid ++ "-" ++ email
    create_refresh_token := fun uid => "refresh-" ++ toString uid
    decode_token := fun s =>
      if s = "tok0" then some { type := some "refresh", sub := some 1 }
      else if s = "refresh-1" then some { type := some "refresh", sub := some 1 }
      else none
    hash_token := fun s => s ++ "-sha" }

/-- A concrete credential store: one user who owns one valid (non-revoked,
unexpired) refresh token whose hash is `"tok0-sha"`. -/
def cexAuthDb : AuthDb :=
  { users := [{ id := 1, email := "a@example.com", password_hash := some "bhash",
                name := none, is_email_verified := false, avatar_url := none }],
    refresh_tokens := [{ user_id := 1, token_hash := "tok0-sha",
                         expires_at := 1000000, revoked := false }] }

/-- The store state the rotation flow's first commit makes observable when
rotating `"tok0"` in `cexAuthDb` at instant 0: the new pair's row exists while
the old row is still unrevoked. -/
def cexAuthDbMid : AuthDb :=
  { users := cexAuthDb.users,
    refresh_tokens := [{ user_id := 1, token_hash := "tok0-sha",
                         expires_at := 1000000, revoked := false },
                       { user_id := 1, token_hash := "refresh-1-sha",
                         expires_at := 604800, revoked := false }] }

/-- Counterexample to C1 as stated: rotating the valid token `"tok0"` commits
twice, and the first committed store state — observable to other requests —
already holds the new pair's unrevoked row while the old row is still
unrevoked; a duplicate rotate attempt validating against that intermediate
state (or the pre-rotation state) passes validation and hence also succeeds,
so rotation is not one atomic unit and rapid duplicate attempts are not
limited to one success. -/
theorem C1_rotation_not_atomic_counterexample :
    (refresh_access_token cexTokenCrypto "tok0" cexAuthDb 0).2.head? = some cexAuthDbMid ∧
    (cexAuthDbMid.refresh_tokens.any (fun r =>
      r.token_hash == cexTokenCrypto.hash_token (cexTokenCrypto.create_refresh_token 1)
        && !r.revoked)) = true ∧
    (cexAuthDbMid.refresh_tokens.any (fun r =>
      r.token_hash == cexTokenCrypto.hash_token "tok0" && !r.revoked)) = true ∧
    (refresh_validate cexTokenCrypto "tok0" cexAuthDbMid 0 matches .ok _) := by
  refine ⟨by rfl, by rfl, by rfl, ?_⟩
  rw [show refresh_validate cexTokenCrypto "tok0" cexAuthDbMid 0 =
    .ok ({ user_id := 1, token_hash := "tok0-sha", expires_at := 1000000, revoked := false },
         { id := 1, email := "a@example.com", password_hash := some "bhash",
           name := none, is_email_verified := false, avatar_url := none }) from by rfl]

/-- The `RefreshToken` record `_generate_tokens` inserts for a user at a given
instant (abbreviation for the row literal appearing in `_generate_tokens`). -/
def new_refresh_record (tc : TokenCrypto) (user : UserRow) (now : Int) : RefreshTokenRow :=
  { user_id := user.id, token_hash := tc.hash_token (tc.create_refresh_token user.id),
    expires_at := now + refresh_token_expire_days * 86400, revoked := false }

/-- C1 amended: rotating a valid refresh token returns the new pair via two
separate commits: the first appends the new pair's row while the old record is
still unrevoked, the second sets the revoked flag on exactly the single found
record — so by completion the new row is present unrevoked and the number of
non-revoked records carrying the old hash has dropped by exactly one, and in
the ordinary case where the presented hash matched only one non-revoked record
a further rotate attempt against the completed store fails with the
`TokenRevokedOrUnknown` signal; but the unit is not atomic: a duplicate rotate
attempt validating against the intermediate committed state still passes
validation, so two rapid duplicate attempts can both succeed. -/
theorem C1_rotation_rotates_but_not_atomically (tc : TokenCrypto) (tok : String)
    (db : AuthDb) (now : Int) (uid : Nat) (rec : RefreshTokenRow) (user : UserRow)
    (hdec : tc.decode_token tok = some { type := some "refresh", sub := some uid })
    (hfind : db.refresh_tokens.find?
      (fun r => r.token_hash == tc.hash_token tok && r.revoked == false) = some rec)
    (hexp : ¬ rec.expires_at < now)
    (huser : db.users.find? (fun u => u.id == uid) = some user)
    (hnewhash : tc.hash_token (tc.create_refresh_token user.id) ≠ rec.token_hash) :
    refresh_access_token tc tok db now =
      (.ok { access_token := tc.create_access_token user.id user.email,
             refresh_token := tc.create_refresh_token user.id, token_type := "bearer" },
       [{ db with refresh_tokens := db.refresh_tokens ++ [new_refresh_record tc user now] },
        { db with refresh_tokens := revoke_token_record
                      (db.refresh_tokens ++ [new_refresh_record tc user now])
                      rec.token_hash }]) ∧
    revoke_token_record (db.refresh_tokens ++ [new_refresh_record tc user now])
        rec.token_hash =
      revoke_token_record db.refresh_tokens rec.token_hash ++
        [new_refresh_record tc user now] ∧
    (revoke_token_record db.refresh_tokens rec.token_hash ++
        [new_refresh_record tc user now]).getLast? =
      some (new_refresh_record tc user now) ∧
    (revoke_token_record db.refresh_tokens rec.token_hash ++
        [new_refresh_record tc user now]).countP
        (fun r => r.token_hash == rec.token_hash && r.revoked == false) + 1 =
      db.refresh_tokens.countP
        (fun r => r.token_hash == rec.token_hash && r.revoked == false) ∧
    (db.refresh_tokens.countP
        (fun r => r.token_hash == rec.token_hash && r.revoked == false) = 1 →
      refresh_validate tc tok
        { db with refresh_tokens := revoke_token_record
                      (db.refresh_tokens ++ [new_refresh_record tc user now])
                      rec.token_hash } now =
        .error { status_code := 401, detail := "Token not found or revoked" }) ∧
    refresh_validate tc tok
      { db with refresh_tokens := db.refresh_tokens ++ [new_refresh_record tc user now] }
      now = .ok (rec, user) := by
  have hrechash : rec.token_hash = tc.hash_token tok := by
    have hmem := List.find?_some hfind
    simp only [Bool.and_eq_true, beq_iff_eq] at hmem
    exact hmem.1
  have hfind2 : db.refresh_tokens.find?
      (fun r => r.token_hash == tc.hash_token tok && !r.revoked) = some rec := by
    have h := hfind
    simp only [show ∀ b : Bool, (b == false) = !b from by simp] at h
    exact h
  have hfindR : db.refresh_tokens.find?
      (fun r => r.token_hash == rec.token_hash && r.revoked == false) = some rec := by
    rw [hrechash]
    exact hfind
  have hsomeR : (db.refresh_tokens.find?
      (fun r => r.token_hash == rec.token_hash && r.revoked == false)).isSome := by
    rw [hfindR]
    rfl
  have hcnt := countP_revoke_token_record db.refresh_tokens rec.token_hash hsomeR
  have hnew0 : ([new_refresh_record tc user now] : List RefreshTokenRow).countP
      (fun r => r.token_hash == rec.token_hash && r.revoked == false) = 0 := by
    simp [new_refresh_record, List.countP_cons, hnewhash]
  refine ⟨?_, revoke_token_record_append db.refresh_tokens _ rec.token_hash hsomeR,
    by simp, ?_, ?_, ?_⟩
  · simp [refresh_access_token, refresh_validate, hdec, hfind2, hexp, huser,
      _generate_tokens, new_refresh_record]
  · rw [List.countP_append, hnew0]
    omega
  · intro hone
    have hzero : (revoke_token_record db.refresh_tokens rec.token_hash).countP
        (fun r => r.token_hash == rec.token_hash && r.revoked == false) = 0 := by
      omega
    have hnone : (revoke_token_record
        (db.refresh_tokens ++ [new_refresh_record tc user now]) rec.token_hash).find?
        (fun r => r.token_hash == tc.hash_token tok && !r.revoked) = none := by
      rw [revoke_token_record_append db.refresh_tokens _ rec.token_hash hsomeR]
      apply List.find?_eq_none.mpr
      intro r hr hcontra
      simp only [Bool.and_eq_true, beq_iff_eq, Bool.not_eq_eq_eq_not, Bool.not_true]
        at hcontra
      rcases List.mem_append.mp hr with hrl | hrr
      · apply List.countP_eq_zero.mp hzero r hrl
        simp [hcontra.1, hcontra.2, hrechash]
      · simp only [List.mem_singleton] at hrr
        subst hrr
        simp only [new_refresh_record] at hcontra
        exact hnewhash (hcontra.1.trans hrechash.symm)
    simp [refresh_validate, hdec, hnone]
  · have happ : ({ db with refresh_tokens :=
        db.refresh_tokens ++ [new_refresh_record tc user now] } : AuthDb).refresh_tokens.find?
        (fun r => r.token_hash == tc.hash_token tok && !r.revoked) = some rec := by
      show (db.refresh_tokens ++ _).find? _ = some rec
      rw [List.find?_append, hfind2]
      rfl
    simp [refresh_validate, hdec, happ, hexp, huser]

/-- Witness for C1's amended theorem at the concrete store `cexAuthDb`: the
rotation returns the new pair and its two commits, the second of which revokes
exactly the found record while keeping the new row unrevoked. -/
theorem C1_rotation_rotates_but_not_atomically_witness :
    refresh_access_token cexTokenCrypto "tok0" cexAuthDb 0 =
      (.ok { access_token := "access-1-a@example.com", refresh_token := "refresh-1",
             token_type := "bearer" },
       [cexAuthDbMid,
        { users := cexAuthDb.users,
          refresh_tokens := [{ user_id := 1, token_hash := "tok0-sha",
                               expires_at := 1000000, revoked := true },
                             { user_id := 1, token_hash := "refresh-1-sha",
                               expires_at := 604800, revoked := false }] }]) := by
  have h := (C1_rotation_rotates_but_not_atomically cexTokenCrypto "tok0" cexAuthDb 0 1
    { user_id := 1, token_hash := "tok0-sha", expires_at := 1000000, revoked := false }
    { id := 1, email := "a@example.com", password_hash := some "bhash",
      name := none, is_email_verified := false, avatar_url := none }
    (by rfl) (by rfl) (by decide) (by rfl) (by decide)).1
  rw [h]
  rfl

/-- C8 (evaluating the code at the spec's registration input): registering
`"a@example.com"` with password `"longenough1"` succeeds; the service layer
produces the created user together with the access/refresh token pair and
inserts exactly one RefreshToken row holding the *hash* of the refresh token
(not the raw value) — but the `/auth/register` endpoint discards the pair and
responds with only the `UserResponse` projection of the user, which carries no
token fields, contradicting the endpoint's docstring ("Returns the created
user and authentication tokens") and the spec's scenario. -/
theorem C8_register_endpoint_drops_tokens :
    register_user cexTokenCrypto (fun _ _ => "bhash") "somesalt"
        { email := "a@example.com", password := "longenough1", name := none }
        { users := [], refresh_tokens := [] } 0 1 =
      .ok (({ id := 1, email := "a@example.com", password_hash := some "bhash",
              name := none, is_email_verified := false, avatar_url := none },
            { access_token := "access-1-a@example.com", refresh_token := "refresh-1",
              token_type := "bearer" }),
           { users := [{ id := 1, email := "a@example.com", password_hash := some "bhash",
                         name := none, is_email_verified := false, avatar_url := none }],
             refresh_tokens := [{ user_id := 1, token_hash := "refresh-1-sha",
                                  expires_at := 604800, revoked := false }] }) ∧
    register cexTokenCrypto (fun _ _ => "bhash") "somesalt"
        { email := "a@example.com", password := "longenough1", name := none }
        { users := [], refresh_tokens := [] } 0 1 =
      .ok ({ id := 1, email := "a@example.com", name := none,
             is_email_verified := false, avatar_url := none },
           { users := [{ id := 1, email := "a@example.com", password_hash := some "bhash",
                         name := none, is_email_verified := false, avatar_url := none }],
             refresh_tokens := [{ user_id := 1, token_hash := "refresh-1-sha",
                                  expires_at := 604800, revoked := false }] }) ∧
    cexTokenCrypto.hash_token "refresh-1" = "refresh-1-sha" ∧ "refresh-1-sha" ≠ "refresh-1" := by
  refine ⟨by rfl, by rfl, by rfl, by decide⟩

end AgenticBackend
